import Mathlib

/-!
Verification of the newtra trading core: a shallow embedding of the
signal-to-order pipeline (signal intake, risk gating, order execution,
position ledger, pending-signal workflow), translated from the
TypeScript sources under src/, together with theorems settling the
frozen claims about the specification.

Numeric values (prices, quantities, balances, P&L) are modelled as
rationals; timestamps as naturals; database tables as lists of rows.
Collaborator calls (exchange gateway, DB-generated uuids, the clock)
are threaded as explicit parameters.
-/

/-! ## Basic enumerations (src/src/services/OrderManager.ts, schema 001/006) -/

/-- Order side, column orders.side: BUY or SELL. -/
inductive OrderSide
  | BUY
  | SELL
deriving DecidableEq, Repr

/-- Position side, column positions.side: LONG or SHORT. -/
inductive PosSide
  | LONG
  | SHORT
deriving DecidableEq, Repr

/-- Position status, column positions.status: OPEN or CLOSED. -/
inductive PosStatus
  | OPEN
  | CLOSED
deriving DecidableEq, Repr

/-- Trading venue kind, column trading_type: SPOT or FUTURE. -/
inductive TradingType
  | SPOT
  | FUTURE
deriving DecidableEq, Repr

/-- Signal action from the webhook payload: buy, sell or close. -/
inductive SigAction
  | buy
  | sell
  | close
deriving DecidableEq, Repr

/-- Signal order kind from the webhook payload: market or limit. -/
inductive OrderType
  | market
  | limit
deriving DecidableEq, Repr

/-- Strategy type (strategies.type): automatic or manual. -/
inductive StrategyType
  | automatic
  | manual
deriving DecidableEq, Repr

/-! ## JavaScript truthiness helpers

The TypeScript sources test optional numbers and strings with plain
truthiness (`if (signal.quantity)`, `reviewedBy || null`), under which
the number 0 and the empty string behave like absence.  These helpers
make that explicit. -/

/-- Truthiness of an optional number: 0 and absence are both falsy. -/
def qTruthy (x : Option ℚ) : Bool :=
  match x with
  | some q => decide (q ≠ 0)
  | none => false

/-- JS coercion x || null for an optional string: the empty string becomes null. -/
def strOrNull (x : Option String) : Option String :=
  match x with
  | some s => if s = "" then none else some s
  | none => none

/-! ## Position ledger (src/src/services/OrderManager.ts, lines 865-1063)

Rows of the positions table (schema 001 plus migration 006). The
realized_pnl column has DEFAULT 0 and every insert writes it, so it is
modelled as a plain rational (COALESCE(realized_pnl, 0) is the
identity). closed_at stores the DB clock CURRENT_TIMESTAMP, threaded
here as a natural-number parameter. -/

structure Position where
  id : String
  entry_order_id : String
  symbol : String
  side : PosSide
  trading_type : TradingType
  leverage : Option ℚ
  quantity : ℚ
  entry_price : ℚ
  liquidation_price : Option ℚ
  status : PosStatus
  realized_pnl : ℚ
  exit_price : Option ℚ := none
  exit_order_id : Option String := none
  closed_at : Option Nat := none
deriving DecidableEq, Repr

/-- OrderRequest (src/src/services/OrderManager.ts lines 315-325). -/
structure OrderRequest where
  symbol : String
  side : OrderSide
  quantity : ℚ
  price : Option ℚ := none
  stopPrice : Option ℚ := none
  strategyId : Option String := none
  trading_type : Option TradingType := none
  leverage : Option ℚ := none
deriving DecidableEq, Repr

/-- The SELECT * FROM positions WHERE symbol = ? AND status = OPEN lookup. -/
def findOpenPosition (symbol : String) (positions : List Position) : Option Position :=
  positions.find? (fun p => decide (p.symbol = symbol ∧ p.status = PosStatus.OPEN))

/-- OrderManager.createPosition (lines 865-975): open a new position for
the fill, or re-average an existing same-side OPEN position; an
opposite-side OPEN position is an error.  positionId is the uuid the
source generates.  leverage defaults through JS truthiness
(request.leverage || 5). -/
def createPosition (positionId orderId : String) (req : OrderRequest) (entryPrice : ℚ)
    (positions : List Position) : Except String (List Position) :=
  let trading_type := req.trading_type.getD TradingType.SPOT
  let leverage := if qTruthy req.leverage then req.leverage.getD 5 else 5
  let positionSide := if req.side = OrderSide.BUY then PosSide.LONG else PosSide.SHORT
  match findOpenPosition req.symbol positions with
  | some existingPosition =>
    if existingPosition.side ≠ positionSide then
      Except.error ("Cannot add " ++ "position when opposite side position exists for " ++ req.symbol)
    else
      let totalQuantity := existingPosition.quantity + req.quantity
      let totalValue := existingPosition.quantity * existingPosition.entry_price +
        req.quantity * entryPrice
      let avgEntryPrice := totalValue / totalQuantity
      Except.ok (positions.map (fun p =>
        if p.id = existingPosition.id then
          { p with quantity := totalQuantity, entry_price := avgEntryPrice }
        else p))
  | none =>
    let liquidationPrice : Option ℚ :=
      if trading_type = TradingType.FUTURE then
        if positionSide = PosSide.LONG then some (entryPrice * (1 - 1 / leverage))
        else some (entryPrice * (1 + 1 / leverage))
      else none
    Except.ok (positions ++ [{
      id := positionId
      entry_order_id := orderId
      symbol := req.symbol
      side := positionSide
      trading_type := trading_type
      leverage := if trading_type = TradingType.FUTURE then some leverage else none
      quantity := req.quantity
      entry_price := entryPrice
      liquidation_price := liquidationPrice
      status := PosStatus.OPEN
      realized_pnl := 0 }])

/-- OrderManager.closePosition (lines 977-1063): reduce the open
position for the symbol by the fill.  No open position: warn and
return unchanged.  Side validation fails loudly.  A fill of at least
the open quantity closes the position, overwriting realized_pnl with
the final leg; a smaller fill shrinks the quantity and accumulates
realized_pnl. -/
def closePosition (orderId : String) (req : OrderRequest) (exitPrice : ℚ) (now : Nat)
    (positions : List Position) : Except String (List Position) :=
  match findOpenPosition req.symbol positions with
  | none => Except.ok positions
  | some position =>
    if position.side = PosSide.LONG ∧ req.side ≠ OrderSide.SELL then
      Except.error "LONG positions must be closed with SELL orders"
    else if position.side = PosSide.SHORT ∧ req.side ≠ OrderSide.BUY then
      Except.error "SHORT positions must be closed with BUY orders"
    else
      let realizedPnL :=
        if position.side = PosSide.LONG then (exitPrice - position.entry_price) * req.quantity
        else (position.entry_price - exitPrice) * req.quantity
      if req.quantity ≥ position.quantity then
        Except.ok (positions.map (fun p =>
          if p.id = position.id then
            { p with
              status := PosStatus.CLOSED
              exit_price := some exitPrice
              realized_pnl := realizedPnL
              exit_order_id := some orderId
              closed_at := some now }
          else p))
      else
        let remainingQuantity := position.quantity - req.quantity
        Except.ok (positions.map (fun p =>
          if p.id = position.id then
            { p with
              quantity := remainingQuantity
              realized_pnl := p.realized_pnl + realizedPnL }
          else p))

/-- OrderManager.handleFilledOrder (lines 828-863): for both SPOT and
FUTURE, a BUY fill creates or extends a position and a SELL fill
reduces one; any ledger error is caught and discarded because the
exchange order already succeeded. -/
def handleFilledOrder (orderId positionId : String) (req : OrderRequest) (fillPrice : ℚ)
    (now : Nat) (positions : List Position) : List Position :=
  let attempt :=
    match req.side with
    | OrderSide.BUY => createPosition positionId orderId req fillPrice positions
    | OrderSide.SELL => closePosition orderId req fillPrice now positions
  match attempt with
  | Except.ok ps => ps
  | Except.error _ => positions

/-- Positions of the table that are OPEN for a symbol (used to state
the one-open-position-per-symbol results). -/
def openPositionsFor (symbol : String) (positions : List Position) : List Position :=
  positions.filter (fun p => decide (p.symbol = symbol ∧ p.status = PosStatus.OPEN))

/-! ## Risk Engine (src/unnamed/part_013, RiskManager)

The risk configuration snapshot getRiskConfig reads from the config
table (falling back to static defaults) at the start of every check;
it is passed here as a record.  defaultPositionSizePercent comes from
the static config used by calculatePositionSize.  Prices, balances,
the open-position exposure sum and the daily realized-P&L sum are
collaborator reads (exchange gateway and DB aggregates), threaded as
parameters. -/

structure RiskConfig where
  enabled : Bool
  maxPositionSizePercent : ℚ
  maxTotalExposurePercent : ℚ
  maxDailyLoss : ℚ
  defaultPositionSizePercent : ℚ
deriving DecidableEq, Repr

/-- RiskCheckResult (part_013 lines 9-13). -/
structure RiskCheckResult where
  allowed : Bool
  reason : Option String := none
  calculatedQuantity : Option ℚ := none
deriving DecidableEq, Repr

/-- Rendering of a number interpolated into a reason template with
toFixed(2): two decimal places, rounding at the second decimal. -/
def toFixed2 (q : ℚ) : String :=
  let n : ℤ := round (q * 100)
  let a := n.natAbs
  (if n < 0 then "-" else "") ++ toString (a / 100) ++ "." ++
    (if a % 100 < 10 then "0" else "") ++ toString (a % 100)

/-- Rendering of a number interpolated into a reason template without
toFixed (plain JS template interpolation); the theorems below depend
only on the fixed parts of the templates, not on this rendering. -/
def qRender (q : ℚ) : String :=
  if q.den = 1 then toString q.num else toFixed2 q

/-- RiskManager.checkRiskLimits (part_013 lines 47-134).  The gates in
source order: trading-enabled, position-size, total-exposure,
daily-loss, sufficient-balance; the first failure wins.

The bypassEnabledCheck parameter is Modelled from the spec: no
RiskManager under src/ declares it (only callers pass it -
OrderManager.executeFromSignal forwards it and
AdminController.executeApprovedSignalAsync sets it true); per the
spec the trading-enabled flag is "skippable via bypassEnabledCheck,
used only for a human-approved pending signal", so the first gate is
skipped when it is true and everything else is unchanged. -/
def checkRiskLimits (cfg : RiskConfig) (currentPrice availableBalance currentExposure dailyLoss : ℚ)
    (calculatedQuantity : ℚ) (bypassEnabledCheck : Bool) : RiskCheckResult :=
  if !bypassEnabledCheck && !cfg.enabled then
    { allowed := false, reason := some "Trading is disabled" }
  else
    let orderValue := calculatedQuantity * currentPrice
    let positionSizePercent := orderValue / availableBalance * 100
    if positionSizePercent > cfg.maxPositionSizePercent then
      { allowed := false
        reason := some ("Position size " ++ toFixed2 positionSizePercent ++
          "% exceeds max " ++ qRender cfg.maxPositionSizePercent ++ "%") }
    else
      let totalExposure := currentExposure + orderValue
      let exposurePercent := totalExposure / availableBalance * 100
      if exposurePercent > cfg.maxTotalExposurePercent then
        { allowed := false
          reason := some ("Total exposure " ++ toFixed2 exposurePercent ++
            "% exceeds max " ++ qRender cfg.maxTotalExposurePercent ++ "%") }
      else if |dailyLoss| > cfg.maxDailyLoss then
        { allowed := false
          reason := some ("Daily loss $" ++ toFixed2 |dailyLoss| ++
            " exceeds max $" ++ qRender cfg.maxDailyLoss) }
      else if orderValue > availableBalance then
        { allowed := false
          reason := some ("Insufficient balance. Required: " ++ toFixed2 orderValue ++
            ", Available: " ++ toFixed2 availableBalance) }
      else
        { allowed := true, calculatedQuantity := some calculatedQuantity }

/-- RiskManager.calculatePositionSize (part_013 lines 136-171): a
truthy signal quantity is used verbatim; otherwise the quantity is
sized from the default position-size percentage and floored to 8
decimal places. -/
def calculatePositionSize (cfg : RiskConfig) (availableBalance currentPrice : ℚ)
    (signalQuantity : Option ℚ) : ℚ :=
  if qTruthy signalQuantity then signalQuantity.getD 0
  else
    let positionValue := availableBalance * cfg.defaultPositionSizePercent / 100
    let quantity := positionValue / currentPrice
    ((⌊quantity * 100000000⌋ : ℤ) : ℚ) / 100000000

/-! ## Strategies (src/src/services/StrategyService.ts; schema 001 plus migration 006) -/

/-- One row of the strategies table.  The list order of the table
models the created_at DESC order the service queries return. -/
structure Strategy where
  id : String
  name : String
  stype : StrategyType
  enabled : Bool
  trading_type : Option TradingType := none
  leverage : Option ℚ := none
deriving DecidableEq, Repr

/-- StrategyService.getStrategyByName (lines 87-94): SELECT * FROM
strategies WHERE name = ? - the first row with the name, with no
enabled filter (name is UNIQUE in the schema). -/
def getStrategyByName (name : String) (strategies : List Strategy) : Option Strategy :=
  strategies.find? (fun s => s.name == name)

/-- StrategyService.getStrategyById (lines 75-82). -/
def getStrategyById (id : String) (strategies : List Strategy) : Option Strategy :=
  strategies.find? (fun s => s.id == id)

/-- StrategyService.getStrategiesByType (lines 49-57): rows of one
type in created_at DESC order. -/
def getStrategiesByType (t : StrategyType) (strategies : List Strategy) : List Strategy :=
  strategies.filter (fun s => s.stype == t)

/-! ## Signals (src/src/api/schemas/webhook.schema.ts; SignalProcessor) -/

/-- TradingViewSignal: the parsed webhook payload.  orderType is
optional here because the OrderManager code tests it with strict
equality against the market value and with optional chaining. -/
structure TVSignal where
  action : SigAction
  symbol : String
  orderType : Option OrderType := none
  price : Option ℚ := none
  quantity : Option ℚ := none
  stopLoss : Option ℚ := none
  strategy : Option String := none
deriving DecidableEq, Repr

/-- One row of the signals table (schema 001). -/
structure SignalRow where
  id : String
  strategy_id : Option String := none
  action : SigAction
  symbol : String
  processed : Bool
  order_id : Option String := none
  error_message : Option String := none
  processed_at : Option Nat := none
deriving DecidableEq, Repr

/-! ## Order execution engine (src/src/services/OrderManager.ts, lines 315-748)

The exchange gateway response for an order placement; a failed call is
an Except.error carrying the exception message.  fills commissions are
pre-summed (the source folds parseFloat over the fills array). -/

structure BinanceOrder where
  orderId : Nat
  status : String
  executedQty : ℚ
  cummulativeQuoteQty : ℚ
  fillsCommission : ℚ
  commissionAsset : String
deriving DecidableEq, Repr

/-- One row of the orders table (schema 001 plus migration 006). -/
structure OrderRow where
  id : String
  binance_order_id : Option Nat := none
  symbol : String
  side : OrderSide
  otype : String
  quantity : ℚ
  price : Option ℚ := none
  status : String
  filled_quantity : Option ℚ := none
  avg_fill_price : Option ℚ := none
  commission : Option ℚ := none
  commission_asset : Option String := none
  strategy_id : Option String := none
  risk_passed : Option Bool := none
  error_message : Option String := none
  trading_type : TradingType := TradingType.SPOT
deriving DecidableEq, Repr

/-- The persistent store the execution engine touches: orders,
positions and signals tables. -/
structure DBState where
  orders : List OrderRow
  positions : List Position
  signals : List SignalRow
deriving DecidableEq, Repr

/-- SignalProcessor.updateSignalStatus (SignalProcessor.ts lines
225-239): processed = 1 unless an error message is truthy; empty-string
order ids and error messages are stored as NULL. -/
def updateSignalStatus (signalId orderId : String) (errorMessage : Option String) (now : Nat)
    (st : DBState) : DBState :=
  { st with
    signals := st.signals.map (fun s =>
      if s.id = signalId then
        { s with
          processed := (strOrNull errorMessage).isNone
          order_id := if orderId = "" then none else some orderId
          error_message := strOrNull errorMessage
          processed_at := some now }
      else s) }

/-- OrderManager.getOrderSide (lines 780-788): buy maps to BUY, sell
and close map to SELL. -/
def getOrderSide (a : SigAction) : OrderSide :=
  match a with
  | SigAction.buy => OrderSide.BUY
  | SigAction.sell => OrderSide.SELL
  | SigAction.close => OrderSide.SELL

/-- OrderManager.executeMarketOrder (lines 527-646).  orderId and
positionId stand for the uuids generated inside; gw is the outcome of
the gateway call (for FUTURE the preceding setFuturesLeverage is part
of the same fallible interaction).  On success one order row is
inserted and, if the gateway reports FILLED, the fill is handed to the
position ledger.  On gateway failure an automatic signal gets a
REJECTED order row; a manual approval gets none; either way the error
propagates. -/
def executeMarketOrder (orderId positionId : String) (gw : Except String BinanceOrder)
    (now : Nat) (req : OrderRequest) (riskPassed : Bool) (isManualApproval : Bool)
    (st : DBState) : Except String String × DBState :=
  let trading_type := req.trading_type.getD TradingType.SPOT
  match gw with
  | Except.ok binanceOrder =>
    let avgFillPrice :=
      if binanceOrder.cummulativeQuoteQty > 0 then
        binanceOrder.cummulativeQuoteQty / binanceOrder.executedQty
      else 0
    let row : OrderRow := {
      id := orderId
      binance_order_id := some binanceOrder.orderId
      symbol := req.symbol
      side := req.side
      otype := "MARKET"
      quantity := req.quantity
      status := binanceOrder.status
      filled_quantity := some binanceOrder.executedQty
      avg_fill_price := some avgFillPrice
      commission := some binanceOrder.fillsCommission
      commission_asset := some binanceOrder.commissionAsset
      strategy_id := req.strategyId
      risk_passed := some riskPassed
      trading_type := trading_type }
    let st1 := { st with orders := st.orders ++ [row] }
    let st2 :=
      if binanceOrder.status = "FILLED" then
        { st1 with positions := handleFilledOrder orderId positionId req avgFillPrice now st1.positions }
      else st1
    (Except.ok orderId, st2)
  | Except.error msg =>
    if !isManualApproval then
      let row : OrderRow := {
        id := orderId
        symbol := req.symbol
        side := req.side
        otype := "MARKET"
        quantity := req.quantity
        status := "REJECTED"
        error_message := some msg
        strategy_id := req.strategyId
        risk_passed := some riskPassed
        trading_type := trading_type }
      (Except.error msg, { st with orders := st.orders ++ [row] })
    else
      (Except.error msg, st)

/-- OrderManager.executeLimitOrder (lines 648-748): like the market
variant but records the limit price and never touches the position
ledger (only filled market orders do). -/
def executeLimitOrder (orderId : String) (gw : Except String BinanceOrder)
    (req : OrderRequest) (riskPassed : Bool) (isManualApproval : Bool)
    (st : DBState) : Except String String × DBState :=
  let trading_type := req.trading_type.getD TradingType.SPOT
  match gw with
  | Except.ok binanceOrder =>
    let row : OrderRow := {
      id := orderId
      binance_order_id := some binanceOrder.orderId
      symbol := req.symbol
      side := req.side
      otype := "LIMIT"
      quantity := req.quantity
      price := req.price
      status := binanceOrder.status
      strategy_id := req.strategyId
      risk_passed := some riskPassed
      trading_type := trading_type }
    (Except.ok orderId, { st with orders := st.orders ++ [row] })
  | Except.error msg =>
    if !isManualApproval then
      let row : OrderRow := {
        id := orderId
        symbol := req.symbol
        side := req.side
        otype := "LIMIT"
        quantity := req.quantity
        price := req.price
        status := "REJECTED"
        error_message := some msg
        strategy_id := req.strategyId
        risk_passed := some riskPassed
        trading_type := trading_type }
      (Except.error msg, { st with orders := st.orders ++ [row] })
    else
      (Except.error msg, st)

/-- The error executeFromSignal can propagate: the dedicated
RiskLimitExceededError, or any other exception message. -/
inductive ExecError
  | riskLimitExceeded (reason : String)
  | other (msg : String)
deriving DecidableEq, Repr

/-- Message carried by an ExecError (what error.message shows the caller). -/
def ExecError.message : ExecError → String
  | ExecError.riskLimitExceeded reason => reason
  | ExecError.other msg => msg

/-- The collaborator environment for one executeFromSignal call:
strategies table snapshot, risk configuration, gateway price/balance
reads, DB aggregates, the gateway order-placement outcome, the clock,
and the uuids the source generates. -/
structure ExecEnv where
  strategies : List Strategy
  cfg : RiskConfig
  currentPrice : ℚ
  availableBalance : ℚ
  currentExposure : ℚ
  dailyLoss : ℚ
  gateway : Except String BinanceOrder
  now : Nat
  rejectOrderId : String
  execOrderId : String
  newPositionId : String
deriving Repr

/-- OrderManager.executeFromSignal (lines 334-472).  Sizes the
quantity, checks risk limits; on rejection persists one REJECTED order
row with the gating reason, updates the signal and raises
RiskLimitExceededError; on approval places a market or limit order (a
limit order requires a truthy signal price) and updates the signal
with the outcome exactly once (the risk-rejected path already updated
it). -/
def executeFromSignal (env : ExecEnv) (signalId : String) (sig : TVSignal)
    (strategyId : Option String) (bypassEnabledCheck : Bool) (isManualApproval : Bool)
    (st : DBState) : Except ExecError String × DBState :=
  let strategy : Option Strategy :=
    match strategyId with
    | some sid => getStrategyById sid env.strategies
    | none => none
  let trading_type :=
    match strategy with
    | some s => s.trading_type.getD TradingType.SPOT
    | none => TradingType.SPOT
  let leverage : ℚ :=
    match strategy with
    | some s => if qTruthy s.leverage then s.leverage.getD 5 else 5
    | none => 5
  let quantity := calculatePositionSize env.cfg env.availableBalance env.currentPrice sig.quantity
  let riskCheck := checkRiskLimits env.cfg env.currentPrice env.availableBalance
    env.currentExposure env.dailyLoss quantity bypassEnabledCheck
  if riskCheck.allowed = false then
    let side := getOrderSide sig.action
    let row : OrderRow := {
      id := env.rejectOrderId
      symbol := sig.symbol
      side := side
      otype := match sig.orderType with
        | some OrderType.market => "MARKET"
        | some OrderType.limit => "LIMIT"
        | none => "MARKET"
      quantity := quantity
      price := if qTruthy sig.price then sig.price else none
      status := "REJECTED"
      error_message := riskCheck.reason
      strategy_id := strategyId
      risk_passed := some false
      trading_type := trading_type }
    let st1 := { st with orders := st.orders ++ [row] }
    let st2 := updateSignalStatus signalId env.rejectOrderId riskCheck.reason env.now st1
    (Except.error (ExecError.riskLimitExceeded (riskCheck.reason.getD "")), st2)
  else
    let side := getOrderSide sig.action
    if sig.orderType = some OrderType.market then
      let req : OrderRequest := {
        symbol := sig.symbol
        side := side
        quantity := quantity
        strategyId := strategyId
        trading_type := some trading_type
        leverage := some leverage }
      match executeMarketOrder env.execOrderId env.newPositionId env.gateway env.now
        req riskCheck.allowed isManualApproval st with
      | (Except.ok oid, st1) => (Except.ok oid, updateSignalStatus signalId oid none env.now st1)
      | (Except.error msg, st1) =>
        (Except.error (ExecError.other msg), updateSignalStatus signalId "" (some msg) env.now st1)
    else
      if qTruthy sig.price = false then
        (Except.error (ExecError.other "Price is required for limit orders"),
          updateSignalStatus signalId "" (some "Price is required for limit orders") env.now st)
      else
        let req : OrderRequest := {
          symbol := sig.symbol
          side := side
          quantity := quantity
          price := sig.price
          strategyId := strategyId
          trading_type := some trading_type
          leverage := some leverage }
        match executeLimitOrder env.execOrderId env.gateway req riskCheck.allowed
          isManualApproval st with
        | (Except.ok oid, st1) => (Except.ok oid, updateSignalStatus signalId oid none env.now st1)
        | (Except.error msg, st1) =>
          (Except.error (ExecError.other msg), updateSignalStatus signalId "" (some msg) env.now st1)

/-! ## Pending-signal workflow (src/src/services/PendingSignalService.ts;
AdminController in src/unnamed/part_009) -/

/-- Pending-signal status: pending, approved, rejected or failed. -/
inductive PendStatus
  | pending
  | approved
  | rejected
  | failed
deriving DecidableEq, Repr

/-- One row of the pending_signals table. -/
structure PendingRow where
  id : String
  strategy_id : String
  signal_id : String
  symbol : String
  action : SigAction
  order_type : String
  price : Option ℚ := none
  quantity : Option ℚ := none
  status : PendStatus
  error_message : Option String := none
  order_id : Option String := none
  created_at : Nat
  reviewed_at : Option Nat := none
  reviewed_by : Option String := none
deriving DecidableEq, Repr

/-- PendingSignalService.getPendingSignalById (lines 78-85). -/
def getPendingSignalById (id : String) (tbl : List PendingRow) : Option PendingRow :=
  tbl.find? (fun p => p.id == id)

/-- PendingSignalService.approvePendingSignal (lines 147-172): missing
id returns null; a non-pending signal is returned unchanged with no
update; a pending one becomes approved with reviewer and review time
stamped. -/
def approvePendingSignal (id : String) (reviewedBy : Option String) (now : Nat)
    (tbl : List PendingRow) : Option PendingRow × List PendingRow :=
  match getPendingSignalById id tbl with
  | none => (none, tbl)
  | some signal =>
    if signal.status ≠ PendStatus.pending then (some signal, tbl)
    else
      let tbl1 := tbl.map (fun p =>
        if p.id = id then
          { p with
            status := PendStatus.approved
            reviewed_at := some now
            reviewed_by := strOrNull reviewedBy }
        else p)
      (getPendingSignalById id tbl1, tbl1)

/-- PendingSignalService.rejectPendingSignal (lines 177-202): same
shape as approve with the rejected status. -/
def rejectPendingSignal (id : String) (reviewedBy : Option String) (now : Nat)
    (tbl : List PendingRow) : Option PendingRow × List PendingRow :=
  match getPendingSignalById id tbl with
  | none => (none, tbl)
  | some signal =>
    if signal.status ≠ PendStatus.pending then (some signal, tbl)
    else
      let tbl1 := tbl.map (fun p =>
        if p.id = id then
          { p with
            status := PendStatus.rejected
            reviewed_at := some now
            reviewed_by := strOrNull reviewedBy }
        else p)
      (getPendingSignalById id tbl1, tbl1)

/-- PendingSignalService.markAsFailed (lines 229-247): the only guard
is existence of the row; the status becomes failed and the error text
is stored whatever the current status is. -/
def markAsFailed (id : String) (errorMessage : String) (tbl : List PendingRow) :
    Option PendingRow × List PendingRow :=
  match getPendingSignalById id tbl with
  | none => (none, tbl)
  | some _ =>
    let tbl1 := tbl.map (fun p =>
      if p.id = id then
        { p with
          status := PendStatus.failed
          error_message := some errorMessage }
      else p)
    (getPendingSignalById id tbl1, tbl1)

/-- PendingSignalService.updateOrderId (lines 252-270): stores the
resulting order reference; the status is untouched. -/
def updateOrderId (id : String) (orderId : String) (tbl : List PendingRow) :
    Option PendingRow × List PendingRow :=
  match getPendingSignalById id tbl with
  | none => (none, tbl)
  | some _ =>
    let tbl1 := tbl.map (fun p =>
      if p.id = id then { p with order_id := some orderId } else p)
    (getPendingSignalById id tbl1, tbl1)

/-- AdminController.executeApprovedSignalAsync (part_009 lines
842-879): runs executeFromSignal with bypassEnabledCheck = true and
isManualApproval = true; on success stores the order id on the pending
signal, on any failure marks it failed with the error message. -/
def executeApprovedSignalAsync (env : ExecEnv) (pendingSignalId signalId : String)
    (sig : TVSignal) (strategyId : Option String) (st : DBState)
    (ptbl : List PendingRow) : DBState × List PendingRow :=
  match executeFromSignal env signalId sig strategyId true true st with
  | (Except.ok orderId, st1) => (st1, (updateOrderId pendingSignalId orderId ptbl).2)
  | (Except.error e, st1) => (st1, (markAsFailed pendingSignalId e.message ptbl).2)

/-! ## Signal intake (src/src/services/SignalProcessor.ts) -/

/-- SignalProcessor.validateSignal (lines 137-164), with JS
truthiness: a limit order without a truthy price is invalid; close
needs nothing else; buy and sell reject supplied non-positive
quantity, price or stop loss (a supplied 0 is falsy and so passes). -/
def validateSignal (sig : TVSignal) : Option String :=
  if sig.orderType = some OrderType.limit ∧ qTruthy sig.price = false then
    some "Price is required for limit orders"
  else if sig.action = SigAction.close then none
  else
    if qTruthy sig.quantity ∧ sig.quantity.getD 0 ≤ 0 then some "Quantity must be positive"
    else if qTruthy sig.price ∧ sig.price.getD 0 ≤ 0 then some "Price must be positive"
    else if qTruthy sig.stopLoss ∧ sig.stopLoss.getD 0 ≤ 0 then some "Stop loss must be positive"
    else none

/-- Rendering of the action in the dedup key template. -/
def actionKey (a : SigAction) : String :=
  match a with
  | SigAction.buy => "buy"
  | SigAction.sell => "sell"
  | SigAction.close => "close"

/-- Rendering of the order type in the dedup key template (JS template
interpolation of undefined is the string undefined). -/
def orderTypeKey (t : Option OrderType) : String :=
  match t with
  | some OrderType.market => "market"
  | some OrderType.limit => "limit"
  | none => "undefined"

/-- SignalProcessor.getSignalKey (lines 186-188): the
action-symbol-orderType fingerprint. -/
def getSignalKey (sig : TVSignal) : String :=
  actionKey sig.action ++ "-" ++ sig.symbol ++ "-" ++ orderTypeKey sig.orderType

/-- The in-memory recentSignals map: an insertion-ordered association
list from fingerprint to last-seen timestamp, like a JS Map. -/
abbrev RecentMap := List (String × Nat)

/-- Map.get: the timestamp stored under a key. -/
def mapLookup (k : String) (m : RecentMap) : Option Nat :=
  ((m : List (String × Nat)).find? (fun e => e.1 == k)).map (fun e => e.2)

/-- Map.set: replace the value in place when the key is present,
append otherwise. -/
def mapSet (k : String) (v : Nat) (m : RecentMap) : RecentMap :=
  if ((m : List (String × Nat)).any (fun e => e.1 == k)) then
    (m : List (String × Nat)).map (fun e => if e.1 = k then (k, v) else e)
  else (m : List (String × Nat)) ++ [(k, v)]

/-- SignalProcessor.isDuplicate (lines 166-176): a fingerprint seen
less than the window ago is a duplicate (Date.now minus last-seen,
modelled with truncated subtraction since the clock does not run
backwards). -/
def isDuplicate (windowMs : Nat) (now : Nat) (recent : RecentMap) (sig : TVSignal) : Bool :=
  match mapLookup (getSignalKey sig) recent with
  | none => false
  | some lastTime => decide (now - lastTime < windowMs)

/-- SignalProcessor.cleanupRecentSignals (lines 190-199): entries
strictly older than the window are pruned. -/
def cleanupRecentSignals (windowMs : Nat) (now : Nat) (recent : RecentMap) : RecentMap :=
  (recent : List (String × Nat)).filter (fun e => !decide (now - e.2 > windowMs))

/-- SignalProcessor.markAsRecent (lines 178-184): stamp the
fingerprint with now then prune old entries. -/
def markAsRecent (windowMs : Nat) (now : Nat) (recent : RecentMap) (sig : TVSignal) : RecentMap :=
  cleanupRecentSignals windowMs now (mapSet (getSignalKey sig) now recent)

/-- The fallback block of SignalProcessor.determineStrategy (lines
109-119): the row named Default Automatic - looked up with no enabled
filter - else the first enabled automatic strategy, else none. -/
def defaultStrategyFallback (strategies : List Strategy) : Option Strategy :=
  match getStrategyByName "Default Automatic" strategies with
  | some s => some s
  | none => ((getStrategiesByType StrategyType.automatic strategies).filter
      (fun s => s.enabled)).head?

/-- The result triple determineStrategy builds from the resolved
strategy option (lines 121-134): requiresApproval is true exactly for
a manual strategy, and no strategy defaults to automatic handling. -/
def strategyResult (o : Option Strategy) : Option String × Option StrategyType × Bool :=
  match o with
  | none => (none, none, false)
  | some s => (some s.id, some s.stype, s.stype = StrategyType.manual)

/-- SignalProcessor.determineStrategy (lines 87-135): a truthy named
strategy is looked up by exact name and dropped when missing or
disabled; otherwise the Default Automatic fallback applies. -/
def determineStrategy (strategies : List Strategy) (sig : TVSignal) :
    Option String × Option StrategyType × Bool :=
  let strategy0 : Option Strategy :=
    match sig.strategy with
    | some sname =>
      if sname = "" then none
      else
        match getStrategyByName sname strategies with
        | none => none
        | some s => if s.enabled = false then none else some s
    | none => none
  let strategy1 : Option Strategy :=
    match strategy0 with
    | some s => some s
    | none => defaultStrategyFallback strategies
  strategyResult strategy1

/-- ProcessSignalResult (SignalProcessor.ts lines 20-25). -/
structure ProcessSignalResult where
  signalId : String
  strategyId : Option String
  strategyType : Option StrategyType
  requiresApproval : Bool
deriving DecidableEq, Repr

/-- The errors processSignal recovers by persisting a failed signal. -/
inductive SPError
  | duplicate (msg : String)
  | validation (msg : String)
deriving DecidableEq, Repr

/-- The signal-intake state: the in-memory dedup map and the signals
table. -/
structure SPState where
  recentSignals : RecentMap
  sigRows : List SignalRow
deriving Repr

/-- SignalProcessor.saveSignal (lines 201-223): one insert per
submission, processed = 1 exactly when there is no error message. -/
def saveSignal (signalId : String) (sig : TVSignal) (errorMessage : Option String)
    (strategyId : Option String) (rows : List SignalRow) : List SignalRow :=
  rows ++ [{
    id := signalId
    strategy_id := strategyId
    action := sig.action
    symbol := sig.symbol
    processed := errorMessage.isNone
    error_message := errorMessage }]

/-- SignalProcessor.processSignal (lines 35-82): duplicate check
first, then validation, then strategy resolution; a success persists
the signal with its strategy and stamps the fingerprint; a duplicate
or validation failure persists the signal with the error text and
rethrows. -/
def processSignal (windowMs : Nat) (strategies : List Strategy) (signalId : String)
    (now : Nat) (sig : TVSignal) (st : SPState) :
    Except SPError ProcessSignalResult × SPState :=
  if isDuplicate windowMs now st.recentSignals sig then
    let msg := "Duplicate signal for " ++ sig.symbol ++ " within " ++
      toString windowMs ++ "ms"
    (Except.error (SPError.duplicate msg),
      { st with sigRows := saveSignal signalId sig (some msg) none st.sigRows })
  else
    match validateSignal sig with
    | some verr =>
      (Except.error (SPError.validation verr),
        { st with sigRows := saveSignal signalId sig (some verr) none st.sigRows })
    | none =>
      let d := determineStrategy strategies sig
      let st1 : SPState := {
        recentSignals := markAsRecent windowMs now st.recentSignals sig
        sigRows := saveSignal signalId sig none d.1 st.sigRows }
      (Except.ok {
        signalId := signalId
        strategyId := d.1
        strategyType := d.2.1
        requiresApproval := d.2.2 }, st1)

/-! ## Helper lemmas -/

/-- find? skips a prefix in which nothing matches. -/
theorem find?_append_first_none {α : Type} (p : α → Bool) {l₁ : List α} (l₂ : List α)
    (h : l₁.find? p = none) : (l₁ ++ l₂).find? p = l₂.find? p := by
  rw [List.find?_append, h, Option.none_or]

/-- A string strictly extending a prefix that the target does not
start with is distinct from the target. -/
theorem append_left_ne (A B : String) (h : B.data.take A.data.length ≠ A.data) :
    ∀ x : String, A ++ x ≠ B := by
  intro x hx
  apply h
  rw [← hx, String.data_append, List.take_left]

/-! ## C1 -/

/-- Concrete OPEN LONG position of the C1 scenario: entry 105,
quantity 1.5, accumulated realized P&L 7.5 from a prior partial
close. -/
def c1pos : Position := {
  id := "pos-1"
  entry_order_id := "entry-1"
  symbol := "BTCUSDT"
  side := PosSide.LONG
  trading_type := TradingType.SPOT
  leverage := none
  quantity := 3/2
  entry_price := 105
  liquidation_price := none
  status := PosStatus.OPEN
  realized_pnl := 15/2 }

/-- The reducing SELL fill of the C1 scenario: quantity 1.5. -/
def c1req : OrderRequest := {
  symbol := "BTCUSDT"
  side := OrderSide.SELL
  quantity := 3/2 }

/-- C1 counterexample: the SELL fill of 1.5 at 100 closes the position
but the stored realized P&L is the final leg (100 - 105) x 1.5 = -7.5,
not the claimed cumulative 7.5 + (-7.5) = 0.0: the full-close UPDATE
overwrites realized_pnl instead of adding to it. -/
theorem C1_counterexample :
    closePosition "exit-1" c1req 100 5 [c1pos] =
      Except.ok [{ c1pos with
        status := PosStatus.CLOSED
        exit_price := some 100
        realized_pnl := -(15/2)
        exit_order_id := some "exit-1"
        closed_at := some 5 }] ∧
    (-(15/2) : ℚ) ≠ 0 := by
  constructor
  · simp [closePosition, findOpenPosition, c1pos, c1req, List.find?]
    norm_num
  · norm_num

/-- C1 (amended): a reducing SELL fill of at least the open quantity
closes an OPEN LONG position with the exit price, the exit order
reference and the close timestamp set, and sets realized_pnl to the
final leg (exitPrice - entryPrice) x fillQty alone, discarding any
previously accumulated realized P&L. -/
theorem C1_full_close_overwrites_pnl (p : Position) (oid : String) (exitPrice : ℚ) (now : Nat)
    (req : OrderRequest) (hsym : req.symbol = p.symbol) (hside : req.side = OrderSide.SELL)
    (hLong : p.side = PosSide.LONG) (hOpen : p.status = PosStatus.OPEN)
    (hge : req.quantity ≥ p.quantity) :
    closePosition oid req exitPrice now [p] =
      Except.ok [{ p with
        status := PosStatus.CLOSED
        exit_price := some exitPrice
        realized_pnl := (exitPrice - p.entry_price) * req.quantity
        exit_order_id := some oid
        closed_at := some now }] := by
  simp [closePosition, findOpenPosition, List.find?, hsym, hOpen, hLong, hside, hge]

/-- Witness for the amended C1 theorem at the concrete scenario. -/
theorem C1_full_close_overwrites_pnl_witness :
    closePosition "exit-1" c1req 100 7 [c1pos] =
      Except.ok [{ c1pos with
        status := PosStatus.CLOSED
        exit_price := some 100
        realized_pnl := (100 - c1pos.entry_price) * c1req.quantity
        exit_order_id := some "exit-1"
        closed_at := some 7 }] :=
  C1_full_close_overwrites_pnl c1pos "exit-1" 100 7 c1req rfl rfl rfl rfl (le_refl _)

/-! ## C6 -/

/-- C6: a reducing SELL fill strictly smaller than the open LONG
quantity is a partial close: realized P&L (exitPrice - entryPrice) x
reducedQty is added to the accumulated realized_pnl, the quantity
shrinks by the fill, and the position stays OPEN. -/
theorem C6_partial_close (p : Position) (oid : String) (exitPrice : ℚ) (now : Nat)
    (req : OrderRequest) (hsym : req.symbol = p.symbol) (hside : req.side = OrderSide.SELL)
    (hLong : p.side = PosSide.LONG) (hOpen : p.status = PosStatus.OPEN)
    (hlt : req.quantity < p.quantity) :
    closePosition oid req exitPrice now [p] =
      Except.ok [{ p with
        quantity := p.quantity - req.quantity
        realized_pnl := p.realized_pnl + (exitPrice - p.entry_price) * req.quantity }] ∧
    ({ p with
        quantity := p.quantity - req.quantity
        realized_pnl := p.realized_pnl + (exitPrice - p.entry_price) * req.quantity } :
      Position).status = PosStatus.OPEN := by
  constructor
  · simp [closePosition, findOpenPosition, List.find?, hsym, hOpen, hLong, hside,
      not_le.mpr hlt]
  · simpa using hOpen

/-- Witness for C6 at the spec scenario: OPEN LONG 2.0 at entry 105
reduced by SELL 0.5 at 120 realizes 7.5 and stays OPEN with 1.5. -/
theorem C6_partial_close_witness :
    closePosition "exit-6" { symbol := "ETHUSDT", side := OrderSide.SELL, quantity := 1/2 }
        120 9 [{
          id := "pos-6"
          entry_order_id := "entry-6"
          symbol := "ETHUSDT"
          side := PosSide.LONG
          trading_type := TradingType.SPOT
          leverage := none
          quantity := 2
          entry_price := 105
          liquidation_price := none
          status := PosStatus.OPEN
          realized_pnl := 0 }] =
      Except.ok [{
          id := "pos-6"
          entry_order_id := "entry-6"
          symbol := "ETHUSDT"
          side := PosSide.LONG
          trading_type := TradingType.SPOT
          leverage := none
          quantity := 3/2
          entry_price := 105
          liquidation_price := none
          status := PosStatus.OPEN
          realized_pnl := 15/2 }] := by
  have h := C6_partial_close {
      id := "pos-6"
      entry_order_id := "entry-6"
      symbol := "ETHUSDT"
      side := PosSide.LONG
      trading_type := TradingType.SPOT
      leverage := none
      quantity := 2
      entry_price := 105
      liquidation_price := none
      status := PosStatus.OPEN
      realized_pnl := 0 }
    "exit-6" 120 9 { symbol := "ETHUSDT", side := OrderSide.SELL, quantity := 1/2 }
    rfl rfl rfl rfl (by norm_num)
  rw [h.1]
  norm_num

/-! ## C10 -/

/-- C10: a filled SELL market order with no OPEN position for its
symbol leaves the positions table untouched and raises no error - the
close handler returns silently - while the gateway order was placed
and exactly the one order row was persisted. -/
theorem C10_sell_fill_without_open_position (oid pid : String) (bo : BinanceOrder) (now : Nat)
    (req : OrderRequest) (riskPassed im : Bool) (st : DBState)
    (hside : req.side = OrderSide.SELL) (hfill : bo.status = "FILLED")
    (hnone : ∀ p ∈ st.positions, ¬(p.symbol = req.symbol ∧ p.status = PosStatus.OPEN)) :
    (∀ fp : ℚ, closePosition oid req fp now st.positions = Except.ok st.positions) ∧
    executeMarketOrder oid pid (Except.ok bo) now req riskPassed im st =
      (Except.ok oid, { st with orders := st.orders ++ [{
        id := oid
        binance_order_id := some bo.orderId
        symbol := req.symbol
        side := req.side
        otype := "MARKET"
        quantity := req.quantity
        status := bo.status
        filled_quantity := some bo.executedQty
        avg_fill_price := some (if bo.cummulativeQuoteQty > 0 then
          bo.cummulativeQuoteQty / bo.executedQty else 0)
        commission := some bo.fillsCommission
        commission_asset := some bo.commissionAsset
        strategy_id := req.strategyId
        risk_passed := some riskPassed
        trading_type := req.trading_type.getD TradingType.SPOT }] }) := by
  have hfind : findOpenPosition req.symbol st.positions = none := by
    unfold findOpenPosition
    exact List.find?_eq_none.mpr (by intro p hp; simpa using hnone p hp)
  have hclose : ∀ fp : ℚ, closePosition oid req fp now st.positions = Except.ok st.positions := by
    intro fp
    unfold closePosition
    rw [hfind]
  refine ⟨hclose, ?_⟩
  simp [executeMarketOrder, handleFilledOrder, hside, hfill, hclose]

/-- Concrete gateway fill for the C10 witness. -/
def c10gw : BinanceOrder := {
  orderId := 77
  status := "FILLED"
  executedQty := 1
  cummulativeQuoteQty := 100
  fillsCommission := 0
  commissionAsset := "USDT" }

/-- Concrete SELL request for the C10 witness. -/
def c10req : OrderRequest := {
  symbol := "BTCUSDT"
  side := OrderSide.SELL
  quantity := 1 }

/-- Concrete empty store for the C10 witness. -/
def c10st : DBState := { orders := [], positions := [], signals := [] }

/-- Witness for C10 on an empty positions table. -/
theorem C10_sell_fill_without_open_position_witness :
    executeMarketOrder "o-10" "p-10" (Except.ok c10gw) 3 c10req true false c10st =
      (Except.ok "o-10", { c10st with orders := c10st.orders ++ [{
        id := "o-10"
        binance_order_id := some c10gw.orderId
        symbol := c10req.symbol
        side := c10req.side
        otype := "MARKET"
        quantity := c10req.quantity
        status := c10gw.status
        filled_quantity := some c10gw.executedQty
        avg_fill_price := some (if c10gw.cummulativeQuoteQty > 0 then
          c10gw.cummulativeQuoteQty / c10gw.executedQty else 0)
        commission := some c10gw.fillsCommission
        commission_asset := some c10gw.commissionAsset
        strategy_id := c10req.strategyId
        risk_passed := some true
        trading_type := c10req.trading_type.getD TradingType.SPOT }] }) :=
  (C10_sell_fill_without_open_position "o-10" "p-10" c10gw 3 c10req true false c10st
    rfl rfl (by simp [c10st])).2

/-! ## C5 -/

/-- The spot BUY fill request used in the C5 scenario. -/
def buyReq (sym : String) (q : ℚ) : OrderRequest := {
  symbol := sym
  side := OrderSide.BUY
  quantity := q
  trading_type := some TradingType.SPOT }

/-- The position the first C5 fill opens. -/
def c5openedPos (sym pid oid : String) : Position := {
  id := pid
  entry_order_id := oid
  symbol := sym
  side := PosSide.LONG
  trading_type := TradingType.SPOT
  leverage := none
  quantity := 1
  entry_price := 100
  liquidation_price := none
  status := PosStatus.OPEN
  realized_pnl := 0 }

/-- C5: with no OPEN position for the symbol, a LONG fill of 1.0 at
100 followed by a same-side LONG fill of 1.0 at 110 leaves exactly one
OPEN position for the symbol, of quantity 2.0 and re-averaged entry
price (1 x 100 + 1 x 110) / (1 + 1) = 105. -/
theorem C5_ledger_averaging (sym pid1 pid2 oid1 oid2 : String) (ps0 : List Position)
    (hopen : ∀ p ∈ ps0, ¬(p.symbol = sym ∧ p.status = PosStatus.OPEN))
    (hid : ∀ p ∈ ps0, p.id ≠ pid1) :
    ∃ ps1 ps2 newPos,
      createPosition pid1 oid1 (buyReq sym 1) 100 ps0 = Except.ok ps1 ∧
      createPosition pid2 oid2 (buyReq sym 1) 110 ps1 = Except.ok ps2 ∧
      openPositionsFor sym ps2 = [newPos] ∧
      newPos.quantity = 2 ∧ newPos.entry_price = 105 ∧
      newPos.status = PosStatus.OPEN ∧ newPos.side = PosSide.LONG := by
  have hfind0 : findOpenPosition sym ps0 = none := by
    unfold findOpenPosition
    exact List.find?_eq_none.mpr (by intro p hp; simpa using hopen p hp)
  have h1 : createPosition pid1 oid1 (buyReq sym 1) 100 ps0 =
      Except.ok (ps0 ++ [c5openedPos sym pid1 oid1]) := by
    simp [createPosition, buyReq, hfind0, qTruthy, c5openedPos]
  have hfind1 : findOpenPosition sym (ps0 ++ [c5openedPos sym pid1 oid1]) =
      some (c5openedPos sym pid1 oid1) := by
    unfold findOpenPosition at hfind0 ⊢
    rw [find?_append_first_none _ _ hfind0]
    simp [List.find?, c5openedPos]
  have h2 : createPosition pid2 oid2 (buyReq sym 1) 110 (ps0 ++ [c5openedPos sym pid1 oid1]) =
      Except.ok (ps0 ++ [{ c5openedPos sym pid1 oid1 with quantity := 2, entry_price := 105 }]) := by
    simp only [createPosition, buyReq, hfind1]
    rw [if_neg (by simp [c5openedPos])]
    rw [List.map_append]
    have hmap0 : ps0.map (fun p =>
        if p.id = (c5openedPos sym pid1 oid1).id then
          { p with
            quantity := (c5openedPos sym pid1 oid1).quantity + 1
            entry_price := ((c5openedPos sym pid1 oid1).quantity *
                (c5openedPos sym pid1 oid1).entry_price + 1 * 110) /
              ((c5openedPos sym pid1 oid1).quantity + 1) }
        else p) = ps0 := by
      have := List.map_congr_left (l := ps0)
        (f := fun p =>
          if p.id = (c5openedPos sym pid1 oid1).id then
            { p with
              quantity := (c5openedPos sym pid1 oid1).quantity + 1
              entry_price := ((c5openedPos sym pid1 oid1).quantity *
                  (c5openedPos sym pid1 oid1).entry_price + 1 * 110) /
                ((c5openedPos sym pid1 oid1).quantity + 1) }
          else p)
        (g := id) (fun p hp => if_neg (by simpa [c5openedPos] using hid p hp))
      simpa using this
    rw [hmap0]
    simp [c5openedPos]
    norm_num
  refine ⟨_, _, { c5openedPos sym pid1 oid1 with quantity := 2, entry_price := 105 },
    h1, h2, ?_, by norm_num, by norm_num, rfl, rfl⟩
  unfold openPositionsFor
  rw [List.filter_append]
  have hf0 : ps0.filter (fun p => decide (p.symbol = sym ∧ p.status = PosStatus.OPEN)) = [] :=
    List.filter_eq_nil_iff.mpr (by intro p hp; simpa using hopen p hp)
  rw [hf0]
  simp [c5openedPos]

/-- Witness for C5 on an empty initial positions table. -/
theorem C5_ledger_averaging_witness :
    ∃ ps1 ps2 newPos,
      createPosition "p-51" "o-51" (buyReq "BTCUSDT" 1) 100 [] = Except.ok ps1 ∧
      createPosition "p-52" "o-52" (buyReq "BTCUSDT" 1) 110 ps1 = Except.ok ps2 ∧
      openPositionsFor "BTCUSDT" ps2 = [newPos] ∧
      newPos.quantity = 2 ∧ newPos.entry_price = 105 ∧
      newPos.status = PosStatus.OPEN ∧ newPos.side = PosSide.LONG :=
  C5_ledger_averaging "BTCUSDT" "p-51" "p-52" "o-51" "o-52" []
    (by intro p hp; simp at hp) (by intro p hp; simp at hp)

/-- Splitting the exceeds-max literal out of a reason template. -/
theorem append_literal_split (Y : String) :
    ("% exceeds max " : String) ++ Y = "% " ++ ("exceeds max" ++ (" " ++ Y)) := by
  have h : (("% " : String) ++ "exceeds max") ++ " " = "% exceeds max " := rfl
  rw [← h, String.append_assoc, String.append_assoc]

/-! ## C7 -/

/-- C7: with maxPositionSizePercent = 5 and the other gates clear, an
order notional of exactly 5 percent of the available balance passes
the risk check, while a notional of 5.0001 percent is rejected with a
reason containing "exceeds max". -/
theorem C7_position_size_boundary (cfg : RiskConfig)
    (price balance exposure dailyLoss q5 q50001 : ℚ)
    (hmax : cfg.maxPositionSizePercent = 5) (henabled : cfg.enabled = true)
    (hb : 0 < balance)
    (h5 : q5 * price = 5 / 100 * balance)
    (hexp : (exposure + q5 * price) / balance * 100 ≤ cfg.maxTotalExposurePercent)
    (hdl : |dailyLoss| ≤ cfg.maxDailyLoss)
    (hbal : q5 * price ≤ balance)
    (h50001 : q50001 * price = 50001 / 1000000 * balance) :
    (checkRiskLimits cfg price balance exposure dailyLoss q5 false).allowed = true ∧
    (checkRiskLimits cfg price balance exposure dailyLoss q50001 false).allowed = false ∧
    ∃ pre post, (checkRiskLimits cfg price balance exposure dailyLoss q50001 false).reason =
      some (pre ++ "exceeds max" ++ post) := by
  have hpct5 : q5 * price / balance * 100 = 5 := by
    rw [h5]; field_simp; ring
  have hpct2 : q50001 * price / balance * 100 = 50001 / 10000 := by
    rw [h50001]; field_simp; ring
  refine ⟨?_, ?_, ?_⟩
  · simp only [checkRiskLimits, henabled, Bool.not_true, Bool.and_false, Bool.not_false,
      Bool.and_true, hpct5, hmax]
    rw [if_neg (by simp)]
    rw [if_neg (by norm_num)]
    rw [if_neg (not_lt.mpr hexp)]
    rw [if_neg (not_lt.mpr hdl)]
    rw [if_neg (not_lt.mpr hbal)]
  · simp only [checkRiskLimits, henabled, hpct2, hmax]
    rw [if_neg (by simp)]
    rw [if_pos (by norm_num)]
  · refine ⟨"Position size " ++ toFixed2 (q50001 * price / balance * 100) ++ "% ",
      " " ++ (qRender cfg.maxPositionSizePercent ++ "%"), ?_⟩
    simp only [checkRiskLimits, henabled, hpct2, hmax]
    rw [if_neg (by simp)]
    rw [if_pos (by norm_num)]
    simp only [Option.some.injEq, hpct2]
    simp only [String.append_assoc]
    rw [append_literal_split]

/-- Concrete risk configuration for the C7 witness. -/
def c7cfg : RiskConfig := {
  enabled := true
  maxPositionSizePercent := 5
  maxTotalExposurePercent := 100
  maxDailyLoss := 1000
  defaultPositionSizePercent := 1 }

/-- Witness for C7: balance 10000 at price 1, quantity 500 is exactly
5 percent and allowed; quantity 500.01 is 5.0001 percent and rejected
with a reason containing "exceeds max". -/
theorem C7_position_size_boundary_witness :
    (checkRiskLimits c7cfg 1 10000 0 0 500 false).allowed = true ∧
    (checkRiskLimits c7cfg 1 10000 0 0 (50001/100) false).allowed = false ∧
    ∃ pre post, (checkRiskLimits c7cfg 1 10000 0 0 (50001/100) false).reason =
      some (pre ++ "exceeds max" ++ post) :=
  C7_position_size_boundary c7cfg 1 10000 0 0 500 (50001/100)
    rfl rfl (by norm_num) (by norm_num) (by norm_num [c7cfg]) (by norm_num [c7cfg])
    (by norm_num) (by norm_num)

/-! ## C3 -/

/-- A bypassed risk check never produces the disabled reason: helper
covering the getD the risk-rejected path applies. -/
theorem bypassed_reason_ne_disabled (cfg : RiskConfig)
    (price balance exposure dailyLoss q : ℚ) :
    ((checkRiskLimits cfg price balance exposure dailyLoss q true).reason.getD "")
      ≠ "Trading is disabled" := by
  simp only [checkRiskLimits]
  rw [if_neg (by simp)]
  split
  · intro hx
    simp only [Option.getD_some] at hx
    exact append_left_ne "Position size " "Trading is disabled" (by decide) _
      (by simpa [String.append_assoc] using hx)
  · split
    · intro hx
      simp only [Option.getD_some] at hx
      exact append_left_ne "Total exposure " "Trading is disabled" (by decide) _
        (by simpa [String.append_assoc] using hx)
    · split
      · intro hx
        simp only [Option.getD_some] at hx
        exact append_left_ne "Daily loss $" "Trading is disabled" (by decide) _
          (by simpa [String.append_assoc] using hx)
      · split
        · intro hx
          simp only [Option.getD_some] at hx
          exact append_left_ne "Insufficient balance. Required: " "Trading is disabled"
            (by decide) _ (by simpa [String.append_assoc] using hx)
        · intro hx
          simp at hx

/-- C3: with bypassEnabledCheck = true (the human-approved pending
signal path) the trading-enabled gate is skipped: the check behaves
exactly as if trading were enabled, never yields the reason Trading is
disabled, and executeFromSignal never raises
RiskLimitExceededError with that reason - even when the configured
flag is false; the remaining gates are unchanged. -/
theorem C3_bypass_skips_enabled_gate :
    (∀ (cfg : RiskConfig) (price balance exposure dailyLoss q : ℚ),
      checkRiskLimits cfg price balance exposure dailyLoss q true =
        checkRiskLimits { cfg with enabled := true } price balance exposure dailyLoss q false) ∧
    (∀ (cfg : RiskConfig) (price balance exposure dailyLoss q : ℚ),
      (checkRiskLimits cfg price balance exposure dailyLoss q true).reason ≠
        some "Trading is disabled") ∧
    (∀ (env : ExecEnv) (sid : String) (sig : TVSignal) (strat : Option String)
      (im : Bool) (st : DBState),
      (executeFromSignal env sid sig strat true im st).1 ≠
        Except.error (ExecError.riskLimitExceeded "Trading is disabled")) := by
  refine ⟨?_, ?_, ?_⟩
  · intro cfg price balance exposure dailyLoss q
    simp [checkRiskLimits]
  · intro cfg price balance exposure dailyLoss q h
    have := bypassed_reason_ne_disabled cfg price balance exposure dailyLoss q
    rw [h] at this
    exact this rfl
  · intro env sid sig strat im st h
    have hne := bypassed_reason_ne_disabled env.cfg env.currentPrice env.availableBalance
      env.currentExposure env.dailyLoss
      (calculatePositionSize env.cfg env.availableBalance env.currentPrice sig.quantity)
    simp only [executeFromSignal] at h
    by_cases hal : (checkRiskLimits env.cfg env.currentPrice env.availableBalance
        env.currentExposure env.dailyLoss
        (calculatePositionSize env.cfg env.availableBalance env.currentPrice sig.quantity)
        true).allowed = false
    · rw [if_pos hal] at h
      simp at h
      exact hne h
    · rw [if_neg hal] at h
      repeat' split at h
      all_goals simp at h

/-- Concrete risk configuration with trading disabled, for the C3 witness. -/
def c3cfg : RiskConfig := {
  enabled := false
  maxPositionSizePercent := 5
  maxTotalExposurePercent := 100
  maxDailyLoss := 1000
  defaultPositionSizePercent := 1 }

/-- Concrete execution environment with trading disabled, for the C3 witness. -/
def c3env : ExecEnv := {
  strategies := []
  cfg := c3cfg
  currentPrice := 1
  availableBalance := 100
  currentExposure := 0
  dailyLoss := 0
  gateway := Except.error "exchange unavailable"
  now := 0
  rejectOrderId := "r-3"
  execOrderId := "e-3"
  newPositionId := "p-3" }

/-- Concrete buy signal for the C3 witness. -/
def c3sig : TVSignal := {
  action := SigAction.buy
  symbol := "BTCUSDT"
  orderType := some OrderType.market
  quantity := some 1 }

/-- Concrete empty store for the C3 witness. -/
def c3st : DBState := { orders := [], positions := [], signals := [] }

/-- Witness for C3 with the trading-enabled flag false. -/
theorem C3_bypass_skips_enabled_gate_witness :
    checkRiskLimits c3cfg 1 100 0 0 1 true =
      checkRiskLimits { c3cfg with enabled := true } 1 100 0 0 1 false ∧
    (checkRiskLimits c3cfg 1 100 0 0 1 true).reason ≠ some "Trading is disabled" ∧
    (executeFromSignal c3env "sig-3" c3sig none true true c3st).1 ≠
      Except.error (ExecError.riskLimitExceeded "Trading is disabled") :=
  ⟨C3_bypass_skips_enabled_gate.1 c3cfg 1 100 0 0 1,
   C3_bypass_skips_enabled_gate.2.1 c3cfg 1 100 0 0 1,
   C3_bypass_skips_enabled_gate.2.2 c3env "sig-3" c3sig none true c3st⟩

/-! ## Pending-signal lookup lemmas -/

/-- A row found by id carries that id. -/
theorem getPendingSignalById_id {id : String} {tbl : List PendingRow} {row : PendingRow}
    (h : getPendingSignalById id tbl = some row) : row.id = id := by
  have := List.find?_some h
  simpa using this

/-- Looking up an id after an id-targeted, id-preserving update maps
the found row through the update. -/
theorem getPendingSignalById_update (id : String) (g : PendingRow → PendingRow)
    (hg : ∀ p, (g p).id = p.id) (tbl : List PendingRow) :
    getPendingSignalById id (tbl.map (fun p => if p.id = id then g p else p)) =
      (getPendingSignalById id tbl).map (fun p => if p.id = id then g p else p) := by
  induction tbl with
  | nil => rfl
  | cons a t ih =>
    by_cases ha : a.id = id
    · simp [getPendingSignalById, List.find?, ha, hg a]
    · have hb : (a.id == id) = false := by simp [ha]
      unfold getPendingSignalById at ih ⊢
      simp only [List.map_cons, if_neg ha, List.find?, hb]
      exact ih

/-- What markAsFailed stores for an existing row. -/
theorem getPendingSignalById_markAsFailed (id msg : String) (tbl : List PendingRow)
    (prow : PendingRow) (h : getPendingSignalById id tbl = some prow) :
    getPendingSignalById id (markAsFailed id msg tbl).2 =
      some { prow with status := PendStatus.failed, error_message := some msg } := by
  have hid : prow.id = id := getPendingSignalById_id h
  unfold markAsFailed
  rw [h]
  simp only
  rw [getPendingSignalById_update id
    (fun p => { p with status := PendStatus.failed, error_message := some msg })
    (fun p => rfl) tbl, h]
  simp [hid]

/-! ## C4 -/

/-- A pending-signals row already reviewed: status rejected. -/
def c4row : PendingRow := {
  id := "ps-1"
  strategy_id := "st-1"
  signal_id := "sg-1"
  symbol := "BTCUSDT"
  action := SigAction.buy
  order_type := "market"
  status := PendStatus.rejected
  created_at := 1 }

/-- C4 counterexample: markAsFailed has no status guard, so a signal
in the terminal rejected state has its status changed to failed - the
claimed invariant that approved, rejected and failed rows never change
status except approved to failed fails at this input. -/
theorem C4_counterexample :
    c4row.status = PendStatus.rejected ∧
    getPendingSignalById "ps-1" (markAsFailed "ps-1" "boom" [c4row]).2 =
      some { c4row with status := PendStatus.failed, error_message := some "boom" } ∧
    PendStatus.failed ≠ PendStatus.rejected := by
  refine ⟨rfl, ?_, by decide⟩
  simp [markAsFailed, getPendingSignalById, List.find?, c4row]

/-- C4 (amended): approve and reject are second-call no-ops - on a
non-pending row they return the stored row and leave the table,
including status, reviewer and review time, untouched - and
updateOrderId never changes any status; but markAsFailed transitions
any existing row to failed with the error text, whatever its current
status (pending, approved, rejected or failed), so at the service
level rejected to failed is also possible, not only approved to
failed. -/
theorem C4_amended :
    (∀ (id : String) (rb : Option String) (now : Nat) (tbl : List PendingRow)
      (row : PendingRow), getPendingSignalById id tbl = some row →
      row.status ≠ PendStatus.pending →
      approvePendingSignal id rb now tbl = (some row, tbl)) ∧
    (∀ (id : String) (rb : Option String) (now : Nat) (tbl : List PendingRow)
      (row : PendingRow), getPendingSignalById id tbl = some row →
      row.status ≠ PendStatus.pending →
      rejectPendingSignal id rb now tbl = (some row, tbl)) ∧
    (∀ (id oid : String) (tbl : List PendingRow),
      ((updateOrderId id oid tbl).2).map PendingRow.status = tbl.map PendingRow.status) ∧
    (∀ (id msg : String) (tbl : List PendingRow) (row : PendingRow),
      getPendingSignalById id tbl = some row →
      getPendingSignalById id (markAsFailed id msg tbl).2 =
        some { row with status := PendStatus.failed, error_message := some msg }) := by
  refine ⟨?_, ?_, ?_, ?_⟩
  · intro id rb now tbl row h hs
    unfold approvePendingSignal
    rw [h]
    simp [hs]
  · intro id rb now tbl row h hs
    unfold rejectPendingSignal
    rw [h]
    simp [hs]
  · intro id oid tbl
    unfold updateOrderId
    cases h : getPendingSignalById id tbl with
    | none => rfl
    | some row =>
      simp only [List.map_map]
      refine List.map_congr_left ?_
      intro p _
      by_cases hp : p.id = id <;> simp [hp]
  · intro id msg tbl row h
    exact getPendingSignalById_markAsFailed id msg tbl row h

/-- An approved pending-signals row for the C4 witness. -/
def c4approvedRow : PendingRow := {
  id := "ps-2"
  strategy_id := "st-1"
  signal_id := "sg-2"
  symbol := "BTCUSDT"
  action := SigAction.sell
  order_type := "market"
  status := PendStatus.approved
  created_at := 2 }

/-- Witness for the amended C4 at concrete rows. -/
theorem C4_amended_witness :
    approvePendingSignal "ps-2" (some "admin") 9 [c4approvedRow] =
      (some c4approvedRow, [c4approvedRow]) ∧
    rejectPendingSignal "ps-2" (some "admin") 9 [c4approvedRow] =
      (some c4approvedRow, [c4approvedRow]) ∧
    ((updateOrderId "ps-2" "ord-1" [c4approvedRow]).2).map PendingRow.status =
      [c4approvedRow].map PendingRow.status ∧
    getPendingSignalById "ps-2" (markAsFailed "ps-2" "exchange down" [c4approvedRow]).2 =
      some { c4approvedRow with
        status := PendStatus.failed
        error_message := some "exchange down" } :=
  ⟨C4_amended.1 "ps-2" (some "admin") 9 [c4approvedRow] c4approvedRow
      (by simp [getPendingSignalById, List.find?, c4approvedRow]) (by simp [c4approvedRow]),
   C4_amended.2.1 "ps-2" (some "admin") 9 [c4approvedRow] c4approvedRow
      (by simp [getPendingSignalById, List.find?, c4approvedRow]) (by simp [c4approvedRow]),
   C4_amended.2.2.1 "ps-2" "ord-1" [c4approvedRow],
   C4_amended.2.2.2 "ps-2" "exchange down" [c4approvedRow] c4approvedRow
      (by simp [getPendingSignalById, List.find?, c4approvedRow])⟩

/-! ## C9 -/

/-- For any inputs the resolution result is a strategyResult, and in
it requiresApproval mirrors a manual strategy type. -/
theorem strategyResult_iff (o : Option Strategy) :
    (strategyResult o).2.2 = true ↔ (strategyResult o).2.1 = some StrategyType.manual := by
  cases o with
  | none => simp [strategyResult]
  | some s => cases hs : s.stype <;> simp [strategyResult, hs]

/-- A disabled Default Automatic strategy. -/
def c9disabledDefault : Strategy := {
  id := "st-9"
  name := "Default Automatic"
  stype := StrategyType.automatic
  enabled := false }

/-- An unnamed signal for the C9 scenario. -/
def c9sig : TVSignal := {
  action := SigAction.buy
  symbol := "BTCUSDT"
  orderType := some OrderType.market }

/-- C9 counterexample: with the only strategy a disabled Default
Automatic and an unnamed signal, resolution returns that disabled
strategy (the fallback lookup has no enabled filter), while the claim
predicts no strategy because no enabled strategy exists. -/
theorem C9_counterexample :
    c9disabledDefault.enabled = false ∧
    determineStrategy [c9disabledDefault] c9sig =
      (some "st-9", some StrategyType.automatic, false) ∧
    (determineStrategy [c9disabledDefault] c9sig).1 ≠ none := by
  refine ⟨rfl, ?_, ?_⟩
  · simp [determineStrategy, defaultStrategyFallback, strategyResult, getStrategyByName,
      c9disabledDefault, c9sig, List.find?]
  · simp [determineStrategy, defaultStrategyFallback, strategyResult, getStrategyByName,
      c9disabledDefault, c9sig, List.find?]

/-- C9 (amended): when the signal is unnamed, or names a missing or
disabled strategy, resolution yields the strategy named Default
Automatic regardless of its enabled flag, else the first enabled
automatic strategy, else no strategy; and requiresApproval is true
exactly when the resolved strategy type is manual. -/
theorem C9_amended :
    (∀ (strategies : List Strategy) (sig : TVSignal), sig.strategy = none →
      determineStrategy strategies sig = strategyResult (defaultStrategyFallback strategies)) ∧
    (∀ (strategies : List Strategy) (sig : TVSignal) (n : String), sig.strategy = some n →
      getStrategyByName n strategies = none →
      determineStrategy strategies sig = strategyResult (defaultStrategyFallback strategies)) ∧
    (∀ (strategies : List Strategy) (sig : TVSignal) (n : String) (s : Strategy),
      sig.strategy = some n → getStrategyByName n strategies = some s → s.enabled = false →
      determineStrategy strategies sig = strategyResult (defaultStrategyFallback strategies)) ∧
    (∀ (strategies : List Strategy) (sig : TVSignal),
      (determineStrategy strategies sig).2.2 = true ↔
        (determineStrategy strategies sig).2.1 = some StrategyType.manual) := by
  refine ⟨?_, ?_, ?_, ?_⟩
  · intro strategies sig h
    simp [determineStrategy, h]
  · intro strategies sig n h hn
    by_cases hne : n = ""
    · simp [determineStrategy, h, hne]
    · simp [determineStrategy, h, hne, hn]
  · intro strategies sig n s h hn hdis
    by_cases hne : n = ""
    · simp [determineStrategy, h, hne]
    · simp [determineStrategy, h, hne, hn, hdis]
  · intro strategies sig
    obtain ⟨o, ho⟩ : ∃ o, determineStrategy strategies sig = strategyResult o := ⟨_, rfl⟩
    rw [ho]
    exact strategyResult_iff o
/-- A disabled manual strategy under a non-default name. -/
def c9offStrategy : Strategy := {
  id := "st-9b"
  name := "Off Strategy"
  stype := StrategyType.manual
  enabled := false }

/-- A signal naming a strategy that does not exist. -/
def c9sigNamedMissing : TVSignal := {
  action := SigAction.buy
  symbol := "BTCUSDT"
  strategy := some "Nope" }

/-- A signal naming the disabled strategy. -/
def c9sigNamedOff : TVSignal := {
  action := SigAction.buy
  symbol := "BTCUSDT"
  strategy := some "Off Strategy" }

/-- Witness for the amended C9 at concrete strategy tables. -/
theorem C9_amended_witness :
    determineStrategy [c9disabledDefault] c9sig =
      strategyResult (defaultStrategyFallback [c9disabledDefault]) ∧
    determineStrategy [c9offStrategy] c9sigNamedMissing =
      strategyResult (defaultStrategyFallback [c9offStrategy]) ∧
    determineStrategy [c9offStrategy] c9sigNamedOff =
      strategyResult (defaultStrategyFallback [c9offStrategy]) ∧
    ((determineStrategy [c9disabledDefault] c9sig).2.2 = true ↔
      (determineStrategy [c9disabledDefault] c9sig).2.1 = some StrategyType.manual) :=
  ⟨C9_amended.1 [c9disabledDefault] c9sig rfl,
   C9_amended.2.1 [c9offStrategy] c9sigNamedMissing "Nope" rfl
     (by simp [getStrategyByName, c9offStrategy, List.find?]),
   C9_amended.2.2.1 [c9offStrategy] c9sigNamedOff "Off Strategy" c9offStrategy rfl
     (by simp [getStrategyByName, c9offStrategy, List.find?]) rfl,
   C9_amended.2.2.2 [c9disabledDefault] c9sig⟩

/-! ## C8 -/

/-- After stamping a fingerprint absent from the map, the map reports
it with the stamping time: mapSet appends it and the cleanup keeps it
because its age is zero. -/
theorem mapLookup_markAsRecent (w now : Nat) (m : RecentMap) (sig : TVSignal)
    (h0 : mapLookup (getSignalKey sig) m = none) :
    mapLookup (getSignalKey sig) (markAsRecent w now m sig) = some now := by
  have hf : m.find? (fun e => e.1 == getSignalKey sig) = none := by
    unfold mapLookup at h0
    cases hc : m.find? (fun e => e.1 == getSignalKey sig) with
    | none => rfl
    | some e => rw [hc] at h0; simp at h0
  have hmem : ∀ e ∈ m, (e.1 == getSignalKey sig) = false := by
    intro e he
    have := List.find?_eq_none.mp hf e he
    simpa using this
  have hany : (m.any (fun e => e.1 == getSignalKey sig)) = false := by
    by_contra hx
    rw [Bool.not_eq_false, List.any_eq_true] at hx
    obtain ⟨e, he, hpe⟩ := hx
    rw [hmem e he] at hpe
    exact Bool.false_ne_true hpe
  unfold markAsRecent mapSet
  rw [if_neg (by simp [hany])]
  unfold cleanupRecentSignals mapLookup
  rw [List.filter_append]
  have hkeep : List.filter (fun e => !decide (now - e.2 > w)) [(getSignalKey sig, now)] =
      [(getSignalKey sig, now)] := by simp
  rw [hkeep, List.find?_append]
  have hnone2 : (m.filter (fun e => !decide (now - e.2 > w))).find?
      (fun e => e.1 == getSignalKey sig) = none := by
    apply List.find?_eq_none.mpr
    intro e he
    have := hmem e (List.mem_of_mem_filter he)
    simp [this]
  rw [hnone2]
  simp [List.find?]

/-- C8: for two signals with the same (action, symbol, orderType)
fingerprint, starting from a map not holding the fingerprint: the
first valid signal is accepted and stamps the map; a second signal
arriving strictly within the window fails with DuplicateSignalError -
before validation, with the attempt persisted carrying the error text
- while a second signal arriving after a gap exceeding the window is
accepted when valid. -/
theorem C8_dedup_window (windowMs : Nat) (strategies : List Strategy)
    (id1 id2 : String) (t1 t2 : Nat) (sig1 sig2 : TVSignal) (st0 : SPState)
    (hfp : getSignalKey sig2 = getSignalKey sig1)
    (h0 : mapLookup (getSignalKey sig1) st0.recentSignals = none)
    (hv1 : validateSignal sig1 = none) :
    processSignal windowMs strategies id1 t1 sig1 st0 =
      (Except.ok {
          signalId := id1
          strategyId := (determineStrategy strategies sig1).1
          strategyType := (determineStrategy strategies sig1).2.1
          requiresApproval := (determineStrategy strategies sig1).2.2 },
        { recentSignals := markAsRecent windowMs t1 st0.recentSignals sig1
          sigRows := saveSignal id1 sig1 none (determineStrategy strategies sig1).1 st0.sigRows }) ∧
    (t2 - t1 < windowMs →
      processSignal windowMs strategies id2 t2 sig2
          { recentSignals := markAsRecent windowMs t1 st0.recentSignals sig1
            sigRows := saveSignal id1 sig1 none (determineStrategy strategies sig1).1 st0.sigRows } =
        (Except.error (SPError.duplicate ("Duplicate signal for " ++ sig2.symbol ++
            " within " ++ toString windowMs ++ "ms")),
          { recentSignals := markAsRecent windowMs t1 st0.recentSignals sig1
            sigRows := saveSignal id2 sig2 (some ("Duplicate signal for " ++ sig2.symbol ++
              " within " ++ toString windowMs ++ "ms")) none
              (saveSignal id1 sig1 none (determineStrategy strategies sig1).1 st0.sigRows) })) ∧
    (t2 - t1 > windowMs → validateSignal sig2 = none →
      processSignal windowMs strategies id2 t2 sig2
          { recentSignals := markAsRecent windowMs t1 st0.recentSignals sig1
            sigRows := saveSignal id1 sig1 none (determineStrategy strategies sig1).1 st0.sigRows } =
        (Except.ok {
            signalId := id2
            strategyId := (determineStrategy strategies sig2).1
            strategyType := (determineStrategy strategies sig2).2.1
            requiresApproval := (determineStrategy strategies sig2).2.2 },
          { recentSignals := markAsRecent windowMs t2
              (markAsRecent windowMs t1 st0.recentSignals sig1) sig2
            sigRows := saveSignal id2 sig2 none (determineStrategy strategies sig2).1
              (saveSignal id1 sig1 none (determineStrategy strategies sig1).1 st0.sigRows) })) := by
  have hdup1 : isDuplicate windowMs t1 st0.recentSignals sig1 = false := by
    unfold isDuplicate
    rw [h0]
  have hlook : mapLookup (getSignalKey sig2)
      (markAsRecent windowMs t1 st0.recentSignals sig1) = some t1 := by
    rw [hfp]
    exact mapLookup_markAsRecent windowMs t1 st0.recentSignals sig1 h0
  refine ⟨?_, ?_, ?_⟩
  · simp [processSignal, hdup1, hv1]
  · intro hin
    have hdup2 : isDuplicate windowMs t2
        (markAsRecent windowMs t1 st0.recentSignals sig1) sig2 = true := by
      unfold isDuplicate
      rw [hlook]
      simpa using hin
    simp [processSignal, hdup2]
  · intro hgt hv2
    have hnl : ¬ (t2 - t1 < windowMs) := by omega
    have hdupf : isDuplicate windowMs t2
        (markAsRecent windowMs t1 st0.recentSignals sig1) sig2 = false := by
      unfold isDuplicate
      rw [hlook]
      simp [hnl]
    simp [processSignal, hdupf, hv2]

/-- The concrete signal for the C8 witness. -/
def c8sig : TVSignal := {
  action := SigAction.buy
  symbol := "BTCUSDT"
  orderType := some OrderType.market }

/-- The empty intake state for the C8 witness. -/
def c8st0 : SPState := { recentSignals := [], sigRows := [] }

/-- Witness for C8: window 30000 ms, first submission at 1000, a
duplicate at 2000 and an accepted resend at 40000. -/
theorem C8_dedup_window_witness :
    processSignal 30000 [] "sg-81" 1000 c8sig c8st0 =
      (Except.ok {
          signalId := "sg-81"
          strategyId := (determineStrategy [] c8sig).1
          strategyType := (determineStrategy [] c8sig).2.1
          requiresApproval := (determineStrategy [] c8sig).2.2 },
        { recentSignals := markAsRecent 30000 1000 c8st0.recentSignals c8sig
          sigRows := saveSignal "sg-81" c8sig none (determineStrategy [] c8sig).1 c8st0.sigRows }) ∧
    processSignal 30000 [] "sg-82" 2000 c8sig
        { recentSignals := markAsRecent 30000 1000 c8st0.recentSignals c8sig
          sigRows := saveSignal "sg-81" c8sig none (determineStrategy [] c8sig).1 c8st0.sigRows } =
      (Except.error (SPError.duplicate ("Duplicate signal for " ++ c8sig.symbol ++
          " within " ++ toString 30000 ++ "ms")),
        { recentSignals := markAsRecent 30000 1000 c8st0.recentSignals c8sig
          sigRows := saveSignal "sg-82" c8sig (some ("Duplicate signal for " ++ c8sig.symbol ++
            " within " ++ toString 30000 ++ "ms")) none
            (saveSignal "sg-81" c8sig none (determineStrategy [] c8sig).1 c8st0.sigRows) }) ∧
    processSignal 30000 [] "sg-82" 40000 c8sig
        { recentSignals := markAsRecent 30000 1000 c8st0.recentSignals c8sig
          sigRows := saveSignal "sg-81" c8sig none (determineStrategy [] c8sig).1 c8st0.sigRows } =
      (Except.ok {
          signalId := "sg-82"
          strategyId := (determineStrategy [] c8sig).1
          strategyType := (determineStrategy [] c8sig).2.1
          requiresApproval := (determineStrategy [] c8sig).2.2 },
        { recentSignals := markAsRecent 30000 40000
            (markAsRecent 30000 1000 c8st0.recentSignals c8sig) c8sig
          sigRows := saveSignal "sg-82" c8sig none (determineStrategy [] c8sig).1
            (saveSignal "sg-81" c8sig none (determineStrategy [] c8sig).1 c8st0.sigRows) }) := by
  have h := C8_dedup_window 30000 [] "sg-81" "sg-82" 1000 2000 c8sig c8sig c8st0
    rfl (by simp [mapLookup, c8st0]) (by simp [validateSignal, c8sig, qTruthy])
  have h2 := C8_dedup_window 30000 [] "sg-81" "sg-82" 1000 40000 c8sig c8sig c8st0
    rfl (by simp [mapLookup, c8st0]) (by simp [validateSignal, c8sig, qTruthy])
  exact ⟨h.1, h.2.1 (by norm_num), h2.2.2 (by norm_num)
    (by simp [validateSignal, c8sig, qTruthy])⟩

/-! ## C2 -/

/-- updateSignalStatus only touches the signals table. -/
theorem orders_updateSignalStatus (sid oid : String) (em : Option String) (now : Nat)
    (st : DBState) : (updateSignalStatus sid oid em now st).orders = st.orders := rfl

/-- C2: every executeFromSignal call whose outcome is risk-rejected,
gateway-failed on an automatic signal, or an order accepted by the
gateway persists exactly one order row; the one exception is a
manually approved signal whose gateway call fails, which persists zero
order rows and instead marks the pending signal failed with the error
text. -/
theorem C2_audit_completeness (env : ExecEnv) (sid : String) (sig : TVSignal)
    (strat : Option String) (bypass : Bool) (st : DBState) :
    ((checkRiskLimits env.cfg env.currentPrice env.availableBalance env.currentExposure
        env.dailyLoss (calculatePositionSize env.cfg env.availableBalance env.currentPrice
          sig.quantity) bypass).allowed = false →
      ∀ im : Bool, ((executeFromSignal env sid sig strat bypass im st).2).orders.length =
        st.orders.length + 1) ∧
    ((checkRiskLimits env.cfg env.currentPrice env.availableBalance env.currentExposure
        env.dailyLoss (calculatePositionSize env.cfg env.availableBalance env.currentPrice
          sig.quantity) bypass).allowed = true →
      (sig.orderType = some OrderType.market ∨ qTruthy sig.price = true) →
      ∀ bo : BinanceOrder, env.gateway = Except.ok bo →
      ∀ im : Bool, ((executeFromSignal env sid sig strat bypass im st).2).orders.length =
        st.orders.length + 1) ∧
    ((checkRiskLimits env.cfg env.currentPrice env.availableBalance env.currentExposure
        env.dailyLoss (calculatePositionSize env.cfg env.availableBalance env.currentPrice
          sig.quantity) bypass).allowed = true →
      (sig.orderType = some OrderType.market ∨ qTruthy sig.price = true) →
      ∀ msg : String, env.gateway = Except.error msg →
      ((executeFromSignal env sid sig strat bypass false st).2).orders.length =
        st.orders.length + 1) ∧
    ((checkRiskLimits env.cfg env.currentPrice env.availableBalance env.currentExposure
        env.dailyLoss (calculatePositionSize env.cfg env.availableBalance env.currentPrice
          sig.quantity) true).allowed = true →
      (sig.orderType = some OrderType.market ∨ qTruthy sig.price = true) →
      ∀ msg : String, env.gateway = Except.error msg →
      ∀ (ptbl : List PendingRow) (psid : String) (prow : PendingRow),
        getPendingSignalById psid ptbl = some prow →
        ((executeApprovedSignalAsync env psid sid sig strat st ptbl).1).orders.length =
          st.orders.length ∧
        getPendingSignalById psid
            (executeApprovedSignalAsync env psid sid sig strat st ptbl).2 =
          some { prow with status := PendStatus.failed, error_message := some msg }) := by
  refine ⟨?_, ?_, ?_, ?_⟩
  · intro hA im
    simp only [executeFromSignal]
    rw [if_pos hA]
    simp [updateSignalStatus]
  · intro hB hOr bo hgw im
    have hnal : ¬ ((checkRiskLimits env.cfg env.currentPrice env.availableBalance
        env.currentExposure env.dailyLoss (calculatePositionSize env.cfg env.availableBalance
          env.currentPrice sig.quantity) bypass).allowed = false) := by
      rw [hB]; simp
    simp only [executeFromSignal]
    rw [if_neg hnal]
    by_cases hm : sig.orderType = some OrderType.market
    · rw [if_pos hm]
      by_cases hfil : bo.status = "FILLED"
      · simp [executeMarketOrder, hgw, hfil, updateSignalStatus]
      · simp [executeMarketOrder, hgw, hfil, updateSignalStatus]
    · have hp : qTruthy sig.price = true := hOr.resolve_left hm
      rw [if_neg hm]
      rw [if_neg (by simp [hp])]
      simp [executeLimitOrder, hgw, updateSignalStatus]
  · intro hC hOr msg hgw
    have hnal : ¬ ((checkRiskLimits env.cfg env.currentPrice env.availableBalance
        env.currentExposure env.dailyLoss (calculatePositionSize env.cfg env.availableBalance
          env.currentPrice sig.quantity) bypass).allowed = false) := by
      rw [hC]; simp
    simp only [executeFromSignal]
    rw [if_neg hnal]
    by_cases hm : sig.orderType = some OrderType.market
    · rw [if_pos hm]
      simp [executeMarketOrder, hgw, updateSignalStatus]
    · have hp : qTruthy sig.price = true := hOr.resolve_left hm
      rw [if_neg hm]
      rw [if_neg (by simp [hp])]
      simp [executeLimitOrder, hgw, updateSignalStatus]
  · intro hD hOr msg hgw ptbl psid prow hrow
    have hnal : ¬ ((checkRiskLimits env.cfg env.currentPrice env.availableBalance
        env.currentExposure env.dailyLoss (calculatePositionSize env.cfg env.availableBalance
          env.currentPrice sig.quantity) true).allowed = false) := by
      rw [hD]; simp
    unfold executeApprovedSignalAsync
    simp only [executeFromSignal]
    rw [if_neg hnal]
    by_cases hm : sig.orderType = some OrderType.market
    · rw [if_pos hm]
      simp only [executeMarketOrder, hgw]
      refine ⟨by simp [updateSignalStatus], ?_⟩
      simpa [ExecError.message] using
        getPendingSignalById_markAsFailed psid msg ptbl prow hrow
    · have hp : qTruthy sig.price = true := hOr.resolve_left hm
      rw [if_neg hm]
      rw [if_neg (by simp [hp])]
      simp only [executeLimitOrder, hgw]
      refine ⟨by simp [updateSignalStatus], ?_⟩
      simpa [ExecError.message] using
        getPendingSignalById_markAsFailed psid msg ptbl prow hrow

/-- Risk configuration with all gates clear for the C2 witness. -/
def c2cfgOk : RiskConfig := {
  enabled := true
  maxPositionSizePercent := 5
  maxTotalExposurePercent := 100
  maxDailyLoss := 1000
  defaultPositionSizePercent := 1 }

/-- Same configuration with trading disabled (risk-rejected path). -/
def c2cfgRej : RiskConfig := { c2cfgOk with enabled := false }

/-- A market buy of quantity 1 for the C2 witness. -/
def c2sig : TVSignal := {
  action := SigAction.buy
  symbol := "BTCUSDT"
  orderType := some OrderType.market
  quantity := some 1 }

/-- A filled gateway response for the C2 witness. -/
def c2bo : BinanceOrder := {
  orderId := 9
  status := "FILLED"
  executedQty := 1
  cummulativeQuoteQty := 1
  fillsCommission := 0
  commissionAsset := "USDT" }

/-- Environment whose risk check rejects (trading disabled, no bypass). -/
def c2envRej : ExecEnv := {
  strategies := []
  cfg := c2cfgRej
  currentPrice := 1
  availableBalance := 10000
  currentExposure := 0
  dailyLoss := 0
  gateway := Except.ok c2bo
  now := 0
  rejectOrderId := "r2"
  execOrderId := "e2"
  newPositionId := "p2" }

/-- Environment whose risk check passes and gateway succeeds. -/
def c2envOk : ExecEnv := { c2envRej with cfg := c2cfgOk }

/-- Environment whose risk check passes and gateway fails. -/
def c2envErr : ExecEnv := { c2envOk with gateway := Except.error "boom" }

/-- Empty store for the C2 witness. -/
def c2st : DBState := { orders := [], positions := [], signals := [] }

/-- Approved pending row for the C2 witness manual path. -/
def c2prow : PendingRow := {
  id := "ps-c2"
  strategy_id := "st-c2"
  signal_id := "sg-2"
  symbol := "BTCUSDT"
  action := SigAction.buy
  order_type := "market"
  status := PendStatus.approved
  created_at := 0 }

/-- Witness for C2 on the four audit outcomes. -/
theorem C2_audit_completeness_witness :
    ((executeFromSignal c2envRej "sg-2" c2sig none false true c2st).2).orders.length =
      c2st.orders.length + 1 ∧
    ((executeFromSignal c2envOk "sg-2" c2sig none false true c2st).2).orders.length =
      c2st.orders.length + 1 ∧
    ((executeFromSignal c2envErr "sg-2" c2sig none false false c2st).2).orders.length =
      c2st.orders.length + 1 ∧
    (((executeApprovedSignalAsync c2envErr "ps-c2" "sg-2" c2sig none c2st [c2prow]).1).orders.length =
      c2st.orders.length ∧
     getPendingSignalById "ps-c2"
        (executeApprovedSignalAsync c2envErr "ps-c2" "sg-2" c2sig none c2st [c2prow]).2 =
      some { c2prow with status := PendStatus.failed, error_message := some "boom" }) :=
  ⟨(C2_audit_completeness c2envRej "sg-2" c2sig none false c2st).1
     (by norm_num [checkRiskLimits, calculatePositionSize, c2envRej, c2cfgRej, c2cfgOk,
       c2sig, qTruthy]) true,
   (C2_audit_completeness c2envOk "sg-2" c2sig none false c2st).2.1
     (by norm_num [checkRiskLimits, calculatePositionSize, c2envOk, c2envRej, c2cfgOk,
       c2sig, qTruthy]) (Or.inl rfl) c2bo rfl true,
   (C2_audit_completeness c2envErr "sg-2" c2sig none false c2st).2.2.1
     (by norm_num [checkRiskLimits, calculatePositionSize, c2envErr, c2envOk, c2envRej,
       c2cfgOk, c2sig, qTruthy]) (Or.inl rfl) "boom" rfl,
   (C2_audit_completeness c2envErr "sg-2" c2sig none false c2st).2.2.2
     (by norm_num [checkRiskLimits, calculatePositionSize, c2envErr, c2envOk, c2envRej,
       c2cfgOk, c2sig, qTruthy]) (Or.inl rfl) "boom" rfl [c2prow] "ps-c2" c2prow
     (by simp [getPendingSignalById, List.find?, c2prow])⟩
